import Mathlib

/-!
Verification of the spline drawing tool session controller
(editor/src/messages/tool/tool_messages/spline_tool.rs).

The embedding mirrors the source: the finite state machine
(SplineToolFsmState and its transition function), the session data
(SplineToolData), the preview engine (update_spline) and retraction
(delete_preview), and the option-update path (process_message).
Positions in the source are f64 pairs (DVec2); the properties verified
here depend only on position equality and on comparing a Euclidean
distance against a threshold, so positions are embedded as integer
pairs and the distance comparison as a comparison of squared values,
which is exact. Outbound responses are embedded as an ordered list of
commands; fresh point, segment and layer identifiers are drawn from an
explicit counter threaded through each handler. The snapping manager
and the auto-panning coordinator are external collaborators whose
internal state the verified properties never mention; their calls are
embedded as marker commands in the emitted list.
-/

namespace SplineToolSpec

/-- A 2D position, embedded with integer coordinates. -/
abbrev Pos : Type := Int × Int

/-- An identifier for a point, segment or layer node. -/
abbrev Id : Type := Nat

/-- A color value, kept opaque: only its identity matters here. -/
abbrev Color : Type := Nat

/-- Modelled from the spec: the minimum drag-distance threshold
constant, defined in the crate consts module which is outside the
provided sources. Its numeric value is irrelevant to every property
below except for picking concrete counterexample positions. -/
def DRAG_THRESHOLD : Int := 1

/-- The source test last_pos.distance(pos) > threshold on Euclidean
distance, embedded exactly by comparing squared values (both sides are
nonnegative). -/
def distGt (a b : Pos) (t : Int) : Bool :=
  t * t < (a.1 - b.1) * (a.1 - b.1) + (a.2 - b.2) * (a.2 - b.2)

/-- Modelled from the spec: the color source selector of the tool color
options (color_selector module, outside the provided sources). -/
inductive ToolColorType : Type
  | Custom
  | Primary
  | Secondary
  deriving DecidableEq, Repr

/-- The fields of ToolColorOptions that the spline tool reads and
writes (color_selector module, outside the provided sources; fields as
used by the source file). -/
structure ToolColorOptions : Type where
  custom_color : Option Color
  color_type : ToolColorType
  primary_working_color : Option Color
  secondary_working_color : Option Color
  deriving DecidableEq, Repr

/-- SplineOptions: the tool options record. -/
structure SplineOptions : Type where
  line_weight : Int
  fill : ToolColorOptions
  stroke : ToolColorOptions
  deriving DecidableEq, Repr

/-- SplineOptionsUpdate: the option-delta payload of UpdateOptions. -/
inductive SplineOptionsUpdate : Type
  | FillColor (color : Option Color)
  | FillColorType (color_type : ToolColorType)
  | LineWeight (line_weight : Int)
  | StrokeColor (color : Option Color)
  | StrokeColorType (color_type : ToolColorType)
  | WorkingColors (primary secondary : Option Color)
  deriving DecidableEq, Repr

/-- SplineToolMessage: the inbound events. The overlay render context
carried by Overlays is irrelevant to every property below and is not
modelled. -/
inductive SplineToolMessage : Type
  | Overlays
  | CanvasTransformed
  | Abort
  | WorkingColorChanged
  | Confirm
  | DragStart
  | DragStop
  | PointerMove
  | PointerOutsideViewport
  | Undo
  | UpdateOptions (action : SplineOptionsUpdate)
  deriving DecidableEq, Repr

/-- SplineToolFsmState: Ready (no active gesture) or Drawing. -/
inductive SplineToolFsmState : Type
  | Ready
  | Drawing
  deriving DecidableEq, Repr

/-- SplineToolData: the session owned by the state machine. The
snap_manager and auto_panning fields of the source hold external
collaborator handles and are represented only by the marker commands
their calls emit. -/
structure SplineToolData : Type where
  points : List (Id × Pos)
  next_point : Pos
  preview_point : Option Id
  preview_segment : Option Id
  weight : Int
  layer : Option Id
  deriving DecidableEq, Repr

/-- The outbound commands a handler can append to the response queue,
in emission order. Vector modifications carry their layer. The segment
insertion of the source always passes absent curve handles, so handles
are not carried. -/
inductive Command : Type
  | StartTransaction
  | EndTransaction
  | AbortTransaction
  | DeselectAllLayers
  | CreateLayer (layer : Id)
  | ApplyFill (layer : Id)
  | ApplyStroke (layer : Id) (weight : Int)
  | StartBuffer
  | InsertPoint (layer point : Id) (position : Pos)
  | InsertSegment (layer segment startPoint endPoint : Id)
  | RemovePoint (layer point : Id)
  | RemoveSegment (layer segment : Id)
  | AutoPanSetup
  | AutoPanShift
  | AutoPanStop
  | SnapCleanup
  | UpdateOptionsSelf (action : SplineOptionsUpdate)
  | LayoutToolOptions
  deriving DecidableEq, Repr

/-- Commands addressed to the document/graph collaborator (transaction
brackets and vector or layer mutations), as opposed to auto-pan,
snapping or UI bookkeeping. -/
def Command.isDocument : Command → Bool
  | .StartTransaction | .EndTransaction | .AbortTransaction => true
  | .DeselectAllLayers | .CreateLayer _ | .ApplyFill _ | .ApplyStroke _ _ => true
  | .InsertPoint _ _ _ | .InsertSegment _ _ _ _ => true
  | .RemovePoint _ _ | .RemoveSegment _ _ => true
  | _ => false

/-- The retraction commands. -/
def Command.isRemove : Command → Bool
  | .RemovePoint _ _ | .RemoveSegment _ _ => true
  | _ => false

/-- The speculative insertion commands. -/
def Command.isInsert : Command → Bool
  | .InsertPoint _ _ _ | .InsertSegment _ _ _ _ => true
  | _ => false

/-- The per-event external inputs: the viewport-space mouse position,
the document metadata transform (the source applies the inverse of the
layer-to-viewport transform to the mouse position; the composite map
from viewport to layer space is what is modelled), and the global
working colors. -/
structure Env : Type where
  mouse : Pos
  viewportToLayer : Id → Pos → Pos
  primary_color : Color
  secondary_color : Color

/-- delete_preview: if a layer is recorded, emit removal commands for
the preview point and preview segment when present and clear both
fields; with no layer it does nothing. Returns the updated session and
the emitted commands in order. -/
def delete_preview (tool_data : SplineToolData) : SplineToolData × List Command :=
  match tool_data.layer with
  | none => (tool_data, [])
  | some layer =>
    let out₁ : List Command :=
      match tool_data.preview_point with
      | some id => [Command.RemovePoint layer id]
      | none => []
    let out₂ : List Command :=
      match tool_data.preview_segment with
      | some id => [Command.RemoveSegment layer id]
      | none => []
    ({ tool_data with preview_point := none, preview_segment := none },
      out₁ ++ out₂)

/-- update_spline: retract the current preview, then insert a fresh
point at next_point and, when a committed point exists, a fresh segment
from the last committed point to it; in preview mode record both as the
new preview, in commit mode append the point to the committed list.
The counter gen supplies fresh identifiers. -/
def update_spline (tool_data : SplineToolData) (show_preview : Bool) (gen : Nat) :
    SplineToolData × List Command × Nat :=
  let step₁ := delete_preview tool_data
  let td := step₁.1
  let out := step₁.2
  match td.layer with
  | none => (td, out, gen)
  | some layer =>
    let next_point_pos := td.next_point
    let next_point_id := gen
    let out := out ++ [Command.InsertPoint layer next_point_id next_point_pos]
    let step₂ : SplineToolData × List Command × Nat :=
      match td.points.getLast? with
      | some last =>
        let id := gen + 1
        let out := out ++ [Command.InsertSegment layer id last.1 next_point_id]
        (if show_preview then { td with preview_segment := some id } else td,
          out, gen + 2)
      | none => (td, out, gen + 1)
    let td := step₂.1
    let out := step₂.2.1
    let gen := step₂.2.2
    if show_preview then
      ({ td with preview_point := some next_point_id }, out, gen)
    else
      ({ td with points := td.points ++ [(next_point_id, next_point_pos)] },
        out, gen)

/-- The result of one transition: next state, updated session, emitted
commands in order, and the advanced identifier counter. -/
structure Transition : Type where
  state : SplineToolFsmState
  data : SplineToolData
  emitted : List Command
  gen : Nat
  deriving DecidableEq, Repr

/-- The transition function of the Fsm implementation, arm for arm in
source order. Layer creation at DragStart draws a fresh identifier from
gen; the fixed two-node template and the fill/stroke application are
carried by the CreateLayer, ApplyFill and ApplyStroke commands. -/
def transition (self : SplineToolFsmState) (event : SplineToolMessage)
    (tool_data : SplineToolData) (env : Env) (tool_options : SplineOptions)
    (gen : Nat) : Transition :=
  match self, event with
  | _, .CanvasTransformed => ⟨self, tool_data, [], gen⟩
  | _, .Overlays => ⟨self, tool_data, [], gen⟩
  | .Ready, .DragStart =>
    let weight := tool_options.line_weight
    let layer := gen
    let out := [Command.StartTransaction, Command.DeselectAllLayers,
      Command.CreateLayer layer, Command.ApplyFill layer,
      Command.ApplyStroke layer weight, Command.StartBuffer]
    ⟨.Drawing, { tool_data with weight := weight, layer := some layer },
      out, gen + 1⟩
  | .Drawing, .DragStop =>
    let out := [Command.EndTransaction]
    match tool_data.layer with
    | none => ⟨.Ready, tool_data, out, gen⟩
    | some layer =>
      let pos := env.viewportToLayer layer env.mouse
      let td :=
        if (tool_data.points.getLast?.all
            fun last => distGt last.2 pos DRAG_THRESHOLD) then
          { tool_data with next_point := pos }
        else
          tool_data
      let upd := update_spline td false gen
      ⟨.Drawing, upd.1, out ++ upd.2.1, upd.2.2⟩
  | .Drawing, .PointerMove =>
    match tool_data.layer with
    | none => ⟨.Ready, tool_data, [], gen⟩
    | some layer =>
      let pos := env.viewportToLayer layer env.mouse
      let td := { tool_data with next_point := pos }
      let upd := update_spline td true gen
      ⟨.Drawing, upd.1, upd.2.1 ++ [Command.AutoPanSetup], upd.2.2⟩
  | .Drawing, .PointerOutsideViewport =>
    ⟨.Drawing, tool_data, [Command.AutoPanShift], gen⟩
  | _, .PointerOutsideViewport =>
    ⟨self, tool_data, [Command.AutoPanStop], gen⟩
  | .Drawing, .Confirm | .Drawing, .Abort =>
    let branch :=
      if 2 ≤ tool_data.points.length then
        let del := delete_preview tool_data
        (del.1, del.2 ++ [Command.EndTransaction])
      else
        (tool_data, [Command.AbortTransaction])
    ⟨.Ready,
      { branch.1 with
          layer := none, preview_point := none,
          preview_segment := none, points := [] },
      branch.2 ++ [Command.SnapCleanup], gen⟩
  | _, .WorkingColorChanged =>
    ⟨self, tool_data,
      [Command.UpdateOptionsSelf
        (.WorkingColors (some env.primary_color) (some env.secondary_color))],
      gen⟩
  | _, _ => ⟨self, tool_data, [], gen⟩

/-- SplineTool: machine state, session and options together. -/
structure SplineTool : Type where
  fsm_state : SplineToolFsmState
  tool_data : SplineToolData
  options : SplineOptions
  deriving DecidableEq, Repr

/-- process_message: an UpdateOptions message edits only the options
record and requests a tool-options layout refresh; every other message
is handed to the state machine. -/
def process_message (tool : SplineTool) (message : SplineToolMessage)
    (env : Env) (gen : Nat) : SplineTool × List Command × Nat :=
  match message with
  | .UpdateOptions action =>
    let options := tool.options
    let options :=
      match action with
      | .LineWeight line_weight => { options with line_weight := line_weight }
      | .FillColor color =>
        { options with fill :=
          { options.fill with custom_color := color, color_type := .Custom } }
      | .FillColorType color_type =>
        { options with fill := { options.fill with color_type := color_type } }
      | .StrokeColor color =>
        { options with stroke :=
          { options.stroke with custom_color := color, color_type := .Custom } }
      | .StrokeColorType color_type =>
        { options with stroke := { options.stroke with color_type := color_type } }
      | .WorkingColors primary secondary =>
        { options with
            stroke :=
              { options.stroke with
                  primary_working_color := primary,
                  secondary_working_color := secondary },
            fill :=
              { options.fill with
                  primary_working_color := primary,
                  secondary_working_color := secondary } }
    ({ tool with options := options }, [Command.LayoutToolOptions], gen)
  | _ =>
    let t := transition tool.fsm_state message tool.tool_data env tool.options gen
    ({ tool with fsm_state := t.state, tool_data := t.data }, t.emitted, t.gen)

/-- A machine configuration: state, session and identifier counter. -/
structure Config : Type where
  state : SplineToolFsmState
  data : SplineToolData
  gen : Nat
  deriving DecidableEq, Repr

/-- The default session (Vec empty, zero position, absent options). -/
def initData : SplineToolData :=
  { points := [], next_point := (0, 0), preview_point := none,
    preview_segment := none, weight := 0, layer := none }

/-- The initial configuration: Ready with the default session. -/
def initConfig : Config := ⟨.Ready, initData, 0⟩

/-- One event-handling step on a configuration. -/
def step (c : Config) (ev : SplineToolMessage × Env) (opts : SplineOptions) :
    Config × List Command :=
  let t := transition c.state ev.1 c.data ev.2 opts c.gen
  (⟨t.state, t.data, t.gen⟩, t.emitted)

/-- Handle a trace of events in order, accumulating emitted commands. -/
def run (c : Config) (trace : List (SplineToolMessage × Env))
    (opts : SplineOptions) : Config × List Command :=
  match trace with
  | [] => (c, [])
  | ev :: rest =>
    let s := step c ev opts
    let r := run s.1 rest opts
    (r.1, s.2 ++ r.2)

/-! ### Characterization lemmas for the retraction and preview engine -/

theorem delete_preview_of_layer_none (d : SplineToolData) (h : d.layer = none) :
    delete_preview d = (d, []) := by
  unfold delete_preview
  rw [h]

theorem delete_preview_fst_of_layer_some (d : SplineToolData) (l : Id)
    (h : d.layer = some l) :
    (delete_preview d).1 =
      { d with preview_point := none, preview_segment := none } := by
  unfold delete_preview
  rw [h]

theorem delete_preview_fst_layer (d : SplineToolData) :
    (delete_preview d).1.layer = d.layer := by
  unfold delete_preview
  cases h : d.layer <;> simp [h]

theorem delete_preview_fst_points (d : SplineToolData) :
    (delete_preview d).1.points = d.points := by
  unfold delete_preview
  cases h : d.layer <;> simp [h]

theorem delete_preview_fst_next_point (d : SplineToolData) :
    (delete_preview d).1.next_point = d.next_point := by
  unfold delete_preview
  cases h : d.layer <;> simp [h]

theorem delete_preview_snd_removes (d : SplineToolData) :
    ((delete_preview d).2).all Command.isRemove = true := by
  unfold delete_preview
  cases h : d.layer with
  | none => rfl
  | some l =>
    cases hp : d.preview_point <;> cases hs : d.preview_segment <;>
      simp [Command.isRemove]

/-- Full characterization of update_spline when a layer is recorded:
the session after the call, the emitted commands (the retraction output
followed by the inserts), and the advanced counter, for both preview
and commit mode and for an empty or non-empty committed list. -/
theorem update_spline_eq (d : SplineToolData) (sp : Bool) (g : Nat) (l : Id)
    (h : d.layer = some l) :
    update_spline d sp g =
      match d.points.getLast? with
      | some last =>
        (if sp then
          { d with preview_point := some g, preview_segment := some (g + 1) }
         else
          { d with
              preview_point := none, preview_segment := none,
              points := d.points ++ [(g, d.next_point)] },
         (delete_preview d).2 ++
           [Command.InsertPoint l g d.next_point,
            Command.InsertSegment l (g + 1) last.1 g],
         g + 2)
      | none =>
        (if sp then
          { d with preview_point := some g, preview_segment := none }
         else
          { d with
              preview_point := none, preview_segment := none,
              points := d.points ++ [(g, d.next_point)] },
         (delete_preview d).2 ++ [Command.InsertPoint l g d.next_point],
         g + 1) := by
  obtain ⟨pts, np, pp, ps, w, ly⟩ := d
  subst h
  unfold update_spline delete_preview
  cases hl : pts.getLast? <;> cases sp <;>
    cases hp : pp <;> cases hs : ps <;> simp [hl]

/-! ### Reachability invariants -/

/-- The shape of the preview fields a step can leave behind: both
absent, both present, or (after a pointer move with nothing committed
yet) a preview point alone with an empty committed list. -/
def PreviewShape (d : SplineToolData) : Prop :=
  (d.preview_point = none ∧ d.preview_segment = none) ∨
  (d.preview_point.isSome = true ∧ d.preview_segment.isSome = true) ∨
  (d.preview_point.isSome = true ∧ d.preview_segment = none ∧ d.points = [])

/-- The configuration invariant: the layer reference is present exactly
in the Drawing state, and the preview fields have one of the three
reachable shapes. -/
def Inv (c : Config) : Prop :=
  (c.data.layer.isSome = true ↔ c.state = .Drawing) ∧ PreviewShape c.data

theorem inv_init : Inv initConfig := by
  constructor
  · simp [initConfig, initData]
  · left
    simp [initConfig, initData]

theorem run_cons (c : Config) (ev : SplineToolMessage × Env)
    (rest : List (SplineToolMessage × Env)) (opts : SplineOptions) :
    run c (ev :: rest) opts =
      ((run (step c ev opts).1 rest opts).1,
        (step c ev opts).2 ++ (run (step c ev opts).1 rest opts).2) := rfl

/-- The session that DragStop hands to the preview engine: the pointer
position (mapped to layer space) is adopted as next_point exactly when
no committed point exists or it lies strictly beyond the drag threshold
from the last committed point; otherwise the stored value is kept. -/
def dragStopAdopt (pts : List (Id × Pos)) (np : Pos) (pp ps : Option Id)
    (w : Int) (l : Id) (env : Env) : SplineToolData :=
  if (pts.getLast?.all fun last =>
      distGt last.2 (env.viewportToLayer l env.mouse) DRAG_THRESHOLD) then
    ⟨pts, env.viewportToLayer l env.mouse, pp, ps, w, some l⟩
  else
    ⟨pts, np, pp, ps, w, some l⟩

theorem transition_dragStop_some (pts : List (Id × Pos)) (np : Pos)
    (pp ps : Option Id) (w : Int) (l : Id) (env : Env) (opts : SplineOptions)
    (g : Nat) :
    transition .Drawing .DragStop ⟨pts, np, pp, ps, w, some l⟩ env opts g =
      ⟨.Drawing,
        (update_spline (dragStopAdopt pts np pp ps w l env) false g).1,
        [Command.EndTransaction] ++
          (update_spline (dragStopAdopt pts np pp ps w l env) false g).2.1,
        (update_spline (dragStopAdopt pts np pp ps w l env) false g).2.2⟩ := rfl

theorem transition_dragStop_none (pts : List (Id × Pos)) (np : Pos)
    (pp ps : Option Id) (w : Int) (env : Env) (opts : SplineOptions)
    (g : Nat) :
    transition .Drawing .DragStop ⟨pts, np, pp, ps, w, none⟩ env opts g =
      ⟨.Ready, ⟨pts, np, pp, ps, w, none⟩, [Command.EndTransaction], g⟩ := rfl

theorem transition_pointerMove_some (pts : List (Id × Pos)) (np : Pos)
    (pp ps : Option Id) (w : Int) (l : Id) (env : Env) (opts : SplineOptions)
    (g : Nat) :
    transition .Drawing .PointerMove ⟨pts, np, pp, ps, w, some l⟩ env opts g =
      ⟨.Drawing,
        (update_spline
          ⟨pts, env.viewportToLayer l env.mouse, pp, ps, w, some l⟩ true g).1,
        (update_spline
          ⟨pts, env.viewportToLayer l env.mouse, pp, ps, w, some l⟩ true g).2.1 ++
          [Command.AutoPanSetup],
        (update_spline
          ⟨pts, env.viewportToLayer l env.mouse, pp, ps, w, some l⟩ true g).2.2⟩ :=
  rfl

theorem transition_pointerMove_none (pts : List (Id × Pos)) (np : Pos)
    (pp ps : Option Id) (w : Int) (env : Env) (opts : SplineOptions)
    (g : Nat) :
    transition .Drawing .PointerMove ⟨pts, np, pp, ps, w, none⟩ env opts g =
      ⟨.Ready, ⟨pts, np, pp, ps, w, none⟩, [], g⟩ := rfl

theorem transition_end_eq (pts : List (Id × Pos)) (np : Pos)
    (pp ps : Option Id) (w : Int) (ly : Option Id) (env : Env)
    (opts : SplineOptions) (g : Nat) (e : SplineToolMessage)
    (he : e = SplineToolMessage.Confirm ∨ e = SplineToolMessage.Abort) :
    transition .Drawing e ⟨pts, np, pp, ps, w, ly⟩ env opts g =
      ⟨.Ready, ⟨[], np, none, none, w, none⟩,
        (if 2 ≤ pts.length then
          (delete_preview ⟨pts, np, pp, ps, w, ly⟩).2 ++ [Command.EndTransaction]
         else
          [Command.AbortTransaction]) ++ [Command.SnapCleanup], g⟩ := by
  rcases he with rfl | rfl <;>
    (simp only [transition]
     cases ly <;> cases pp <;> cases ps <;> split <;> rfl)

/-- Every event-handling step preserves the configuration invariant. -/
theorem inv_step (c : Config) (ev : SplineToolMessage × Env)
    (opts : SplineOptions) (h : Inv c) : Inv (step c ev opts).1 := by
  obtain ⟨h1, h2⟩ := h
  obtain ⟨st, d, g⟩ := c
  obtain ⟨e, env⟩ := ev
  obtain ⟨pts, np, pp, ps, w, ly⟩ := d
  simp only [Inv, step] at h1 h2 ⊢
  cases st <;> cases e <;> try exact ⟨h1, h2⟩
  case Ready.DragStart =>
    exact ⟨iff_of_true rfl rfl, h2⟩
  case Drawing.DragStop =>
    have hsome : ly.isSome = true := h1.mpr rfl
    obtain ⟨l, rfl⟩ : ∃ l, ly = some l := Option.isSome_iff_exists.mp hsome
    rw [transition_dragStop_some]
    have htdl : (dragStopAdopt pts np pp ps w l env).layer = some l := by
      unfold dragStopAdopt
      split <;> rfl
    rw [update_spline_eq _ false g l htdl]
    cases hq : (dragStopAdopt pts np pp ps w l env).points.getLast? <;>
      exact ⟨by simp [htdl], Or.inl ⟨rfl, rfl⟩⟩
  case Drawing.PointerMove =>
    have hsome : ly.isSome = true := h1.mpr rfl
    obtain ⟨l, rfl⟩ : ∃ l, ly = some l := Option.isSome_iff_exists.mp hsome
    rw [transition_pointerMove_some]
    rw [update_spline_eq _ true g l rfl]
    cases hq : (SplineToolData.points
        ⟨pts, env.viewportToLayer l env.mouse, pp, ps, w, some l⟩).getLast? with
    | none =>
      have hempty : pts = [] := List.getLast?_eq_none_iff.mp hq
      exact ⟨by simp, Or.inr (Or.inr ⟨by simp, rfl, hempty⟩)⟩
    | some last =>
      exact ⟨by simp, Or.inr (Or.inl ⟨by simp, by simp⟩)⟩
  case Drawing.Confirm =>
    rw [transition_end_eq _ _ _ _ _ _ _ _ _ _ (Or.inl rfl)]
    exact ⟨by simp, Or.inl ⟨rfl, rfl⟩⟩
  case Drawing.Abort =>
    rw [transition_end_eq _ _ _ _ _ _ _ _ _ _ (Or.inr rfl)]
    exact ⟨by simp, Or.inl ⟨rfl, rfl⟩⟩

/-- The configuration invariant holds along any run from any invariant
configuration. -/
theorem inv_run_from (c : Config) (h : Inv c)
    (trace : List (SplineToolMessage × Env)) (opts : SplineOptions) :
    Inv (run c trace opts).1 := by
  induction trace generalizing c with
  | nil => exact h
  | cons ev rest ih =>
    rw [run_cons]
    exact ih (step c ev opts).1 (inv_step c ev opts h)

/-- The configuration invariant holds after any trace from the initial
configuration. -/
theorem inv_run (trace : List (SplineToolMessage × Env))
    (opts : SplineOptions) : Inv (run initConfig trace opts).1 :=
  inv_run_from initConfig inv_init trace opts

/-! ### Projection lemmas for the preview engine -/

theorem update_spline_of_layer_none (d : SplineToolData) (sp : Bool) (g : Nat)
    (h : d.layer = none) : update_spline d sp g = (d, [], g) := by
  unfold update_spline
  rw [delete_preview_of_layer_none d h]
  simp [h]

theorem update_spline_fst_next_point (d : SplineToolData) (sp : Bool) (g : Nat)
    (l : Id) (h : d.layer = some l) :
    (update_spline d sp g).1.next_point = d.next_point := by
  rw [update_spline_eq d sp g l h]
  cases hq : d.points.getLast? <;> cases sp <;> simp [hq]

theorem update_spline_false_points (d : SplineToolData) (g : Nat) (l : Id)
    (h : d.layer = some l) :
    (update_spline d false g).1.points = d.points ++ [(g, d.next_point)] := by
  rw [update_spline_eq d false g l h]
  cases hq : d.points.getLast? <;> simp [hq]

theorem update_spline_fst_layer (d : SplineToolData) (sp : Bool) (g : Nat) :
    (update_spline d sp g).1.layer = d.layer := by
  cases hdl : d.layer with
  | none =>
    rw [update_spline_of_layer_none d sp g hdl]
    exact hdl
  | some l =>
    rw [update_spline_eq d sp g l hdl]
    cases hq : d.points.getLast? <;> cases sp <;> simp [hq, hdl]

/-- The DragStop handler with a recorded layer clears both preview
fields and grows the committed list by exactly one. -/
theorem dragStop_step (d : SplineToolData) (env : Env) (opts : SplineOptions)
    (g : Nat) (l : Id) (hl : d.layer = some l) :
    ((transition .Drawing .DragStop d env opts g).data.points.length =
      d.points.length + 1) ∧
    (transition .Drawing .DragStop d env opts g).data.preview_point = none ∧
    (transition .Drawing .DragStop d env opts g).data.preview_segment = none := by
  obtain ⟨pts, np, pp, ps, w, ly⟩ := d
  have hly : ly = some l := hl
  subst hly
  rw [transition_dragStop_some]
  have htdl : (dragStopAdopt pts np pp ps w l env).layer = some l := by
    unfold dragStopAdopt
    split <;> rfl
  have hpts : (dragStopAdopt pts np pp ps w l env).points = pts := by
    unfold dragStopAdopt
    split <;> rfl
  refine ⟨?_, ?_, ?_⟩
  · rw [update_spline_false_points _ g l htdl, hpts]
    simp
  · rw [update_spline_eq _ false g l htdl]
    cases hq : (dragStopAdopt pts np pp ps w l env).points.getLast? <;> simp [hq]
  · rw [update_spline_eq _ false g l htdl]
    cases hq : (dragStopAdopt pts np pp ps w l env).points.getLast? <;> simp [hq]

/-! ### Concrete fixtures for witnesses and counterexamples -/

/-- A concrete environment: the pointer at the given viewport position
and the identity viewport-to-layer transform. -/
def envAt (p : Pos) : Env := ⟨p, fun _ q => q, 7, 8⟩

/-- Concrete tool options for the concrete evaluations. -/
def opts0 : SplineOptions :=
  ⟨5, ⟨none, .Custom, none, none⟩, ⟨none, .Primary, none, none⟩⟩

/-! ### Claims -/

/-- C1: in the Drawing state, Confirm or Abort with at least two
committed points first emits the retraction of any live preview and
then EndTransaction; with fewer than two committed points it emits
AbortTransaction instead; in both branches the layer reference, both
preview fields and the committed list are cleared and the next state is
Ready. -/
theorem confirm_abort_commits_or_aborts (d : SplineToolData) (env : Env)
    (opts : SplineOptions) (g : Nat) (e : SplineToolMessage)
    (he : e = SplineToolMessage.Confirm ∨ e = SplineToolMessage.Abort) :
    transition .Drawing e d env opts g =
      ⟨.Ready,
        { d with
            layer := none, preview_point := none,
            preview_segment := none, points := [] },
        (if 2 ≤ d.points.length then
          (delete_preview d).2 ++ [Command.EndTransaction]
         else
          [Command.AbortTransaction]) ++ [Command.SnapCleanup], g⟩ := by
  obtain ⟨pts, np, pp, ps, w, ly⟩ := d
  exact transition_end_eq pts np pp ps w ly env opts g e he

/-- Witness for C1: a Drawing session with two committed points and a
live preview, confirmed. -/
theorem confirm_abort_commits_or_aborts_witness :
    transition .Drawing .Confirm
        ⟨[(1, (0, 0)), (2, (9, 9))], (3, 4), some 4, some 5, 5, some 0⟩
        (envAt (3, 4)) opts0 6 =
      ⟨.Ready, ⟨[], (3, 4), none, none, 5, none⟩,
        [Command.RemovePoint 0 4, Command.RemoveSegment 0 5,
          Command.EndTransaction, Command.SnapCleanup], 6⟩ := by
  rw [confirm_abort_commits_or_aborts _ _ _ _ .Confirm (Or.inl rfl)]
  decide

/-- C2 counterexample: from the initial configuration, DragStart
followed by a PointerMove with nothing committed yet ends the step with
a preview point installed and no preview segment, refuting the claim
that both preview fields are always both absent or both present. -/
theorem preview_pair_counterexample :
    ((run initConfig
        [(.DragStart, envAt (0, 0)), (.PointerMove, envAt (0, 0))]
        opts0).1.data.preview_point = some 1) ∧
    ((run initConfig
        [(.DragStart, envAt (0, 0)), (.PointerMove, envAt (0, 0))]
        opts0).1.data.preview_segment = none) := by
  decide

/-- C2 amended: after every event-handling step from the initial
configuration, either both preview fields are absent, or both are
present, or the preview point alone is present while the committed list
is empty (a PointerMove handled before the first commit). -/
theorem preview_pair_invariant (trace : List (SplineToolMessage × Env))
    (opts : SplineOptions) :
    PreviewShape (run initConfig trace opts).1.data :=
  (inv_run trace opts).2

/-- C3: handling DragStop in any Drawing configuration reachable from
the initial one grows the committed list by exactly one and leaves both
preview fields absent. -/
theorem dragStop_commits_one (trace : List (SplineToolMessage × Env))
    (opts : SplineOptions) (env : Env)
    (h : (run initConfig trace opts).1.state = .Drawing) :
    ((step (run initConfig trace opts).1 (.DragStop, env) opts).1.data.points.length
        = (run initConfig trace opts).1.data.points.length + 1) ∧
    ((step (run initConfig trace opts).1
        (.DragStop, env) opts).1.data.preview_point = none) ∧
    ((step (run initConfig trace opts).1
        (.DragStop, env) opts).1.data.preview_segment = none) := by
  have hsome : (run initConfig trace opts).1.data.layer.isSome = true :=
    (inv_run trace opts).1.mpr h
  obtain ⟨l, hl⟩ := Option.isSome_iff_exists.mp hsome
  simp only [step]
  rw [h]
  exact dragStop_step _ env opts _ l hl

/-- Witness for C3: the one-event trace DragStart, then a DragStop. -/
theorem dragStop_commits_one_witness :
    ((run initConfig [(.DragStart, envAt (0, 0))] opts0).1.state = .Drawing) ∧
    ((step (run initConfig [(.DragStart, envAt (0, 0))] opts0).1
        (.DragStop, envAt (2, 2)) opts0).1.data.points.length
        = (run initConfig [(.DragStart, envAt (0, 0))] opts0).1.data.points.length
            + 1) ∧
    ((step (run initConfig [(.DragStart, envAt (0, 0))] opts0).1
        (.DragStop, envAt (2, 2)) opts0).1.data.preview_point = none) ∧
    ((step (run initConfig [(.DragStart, envAt (0, 0))] opts0).1
        (.DragStop, envAt (2, 2)) opts0).1.data.preview_segment = none) :=
  ⟨by decide,
    dragStop_commits_one [(.DragStart, envAt (0, 0))] opts0 (envAt (2, 2))
      (by decide)⟩

/-- C4 counterexample: in the gesture DragStart, PointerMove, Abort a
preview point is live when the gesture ends, yet the emitted stream
contains no remove command at all and ends the gesture with
AbortTransaction, refuting the claim that the removes for a live
preview always precede the transaction-ending command. -/
theorem retraction_before_abort_counterexample :
    ((run initConfig
        [(.DragStart, envAt (0, 0)), (.PointerMove, envAt (0, 0))]
        opts0).1.data.preview_point.isSome = true) ∧
    (Command.AbortTransaction ∈
      (run initConfig
        [(.DragStart, envAt (0, 0)), (.PointerMove, envAt (0, 0)),
          (.Abort, envAt (0, 0))] opts0).2) ∧
    ((run initConfig
        [(.DragStart, envAt (0, 0)), (.PointerMove, envAt (0, 0)),
          (.Abort, envAt (0, 0))] opts0).2.all
        (fun c => ! c.isRemove) = true) := by
  decide

/-- C4 amended: inside every update_spline call the retraction commands
for the existing preview are emitted before the insert commands of that
call; at Confirm or Abort with at least two committed points the
retraction commands precede the EndTransaction that commits the
gesture; with fewer than two committed points no remove command is
emitted and the gesture ends with AbortTransaction, which discards the
preview together with everything else. -/
theorem retraction_precedes_inserts_and_commit :
    (∀ (d : SplineToolData) (sp : Bool) (g : Nat), ∃ rest,
      (update_spline d sp g).2.1 = (delete_preview d).2 ++ rest ∧
        rest.all (fun c => ! c.isRemove) = true) ∧
    (∀ (d : SplineToolData) (env : Env) (opts : SplineOptions) (g : Nat)
        (e : SplineToolMessage),
      (e = SplineToolMessage.Confirm ∨ e = SplineToolMessage.Abort) →
      (2 ≤ d.points.length →
        (transition .Drawing e d env opts g).emitted =
          (delete_preview d).2 ++
            [Command.EndTransaction, Command.SnapCleanup]) ∧
      (d.points.length < 2 →
        (transition .Drawing e d env opts g).emitted =
          [Command.AbortTransaction, Command.SnapCleanup])) := by
  constructor
  · intro d sp g
    cases hdl : d.layer with
    | none =>
      refine ⟨[], ?_, rfl⟩
      rw [update_spline_of_layer_none d sp g hdl,
        delete_preview_of_layer_none d hdl]
      rfl
    | some l =>
      rw [update_spline_eq d sp g l hdl]
      cases hq : d.points.getLast? with
      | none =>
        exact ⟨[Command.InsertPoint l g d.next_point], by simp [hq],
          by simp [Command.isRemove]⟩
      | some last =>
        exact ⟨[Command.InsertPoint l g d.next_point,
          Command.InsertSegment l (g + 1) last.1 g], by simp [hq],
          by simp [Command.isRemove]⟩
  · intro d env opts g e he
    obtain ⟨pts, np, pp, ps, w, ly⟩ := d
    rw [transition_end_eq pts np pp ps w ly env opts g e he]
    constructor
    · intro h2
      simp only [Transition.mk.injEq]
      rw [if_pos h2]
      simp
    · intro h2
      have h2b : pts.length < 2 := h2
      simp only [Transition.mk.injEq]
      rw [if_neg (Nat.not_le.mpr h2b)]
      rfl

/-- Witness for C4 (amended): retraction of a live preview precedes the
committing EndTransaction at a concrete Confirm. -/
theorem retraction_precedes_inserts_and_commit_witness :
    (transition .Drawing .Confirm
        ⟨[(1, (0, 0)), (2, (9, 9))], (3, 4), some 6, some 7, 5, some 0⟩
        (envAt (0, 0)) opts0 8).emitted =
      [Command.RemovePoint 0 6, Command.RemoveSegment 0 7,
        Command.EndTransaction, Command.SnapCleanup] := by
  have h := (retraction_precedes_inserts_and_commit.2
    ⟨[(1, (0, 0)), (2, (9, 9))], (3, 4), some 6, some 7, 5, some 0⟩
    (envAt (0, 0)) opts0 8 .Confirm (Or.inl rfl)).1 (by decide)
  rw [h]
  decide

/-- C5 counterexample: with one committed point at the origin and the
pointer exactly at threshold distance from it, DragStop keeps the
previously stored pending position instead of adopting the computed
one, refuting the claim that a distance exactly equal to the threshold
accepts the position. -/
theorem dragStop_boundary_counterexample :
    (((0 : Int) - 1) * (0 - 1) + ((0 : Int) - 0) * (0 - 0) =
      DRAG_THRESHOLD * DRAG_THRESHOLD) ∧
    ((transition .Drawing .DragStop
        ⟨[(1, (0, 0))], (5, 5), none, none, 5, some 0⟩
        (envAt (1, 0)) opts0 2).data.next_point = (5, 5)) ∧
    (((5 : Int), (5 : Int)) ≠ ((1 : Int), (0 : Int))) := by
  decide

/-- C5 amended: at DragStop the newly computed pointer position becomes
the pending position iff the committed list is empty or the position is
strictly farther than the drag-distance threshold from the last
committed point; at a distance exactly equal to the threshold (and any
smaller one) the previously stored pending position is kept. -/
theorem dragStop_adopts_iff_strictly_beyond (d : SplineToolData) (env : Env)
    (opts : SplineOptions) (g : Nat) (l : Id) (hl : d.layer = some l) :
    (transition .Drawing .DragStop d env opts g).data.next_point =
      if (d.points.getLast?.all fun last =>
          distGt last.2 (env.viewportToLayer l env.mouse) DRAG_THRESHOLD) then
        env.viewportToLayer l env.mouse
      else
        d.next_point := by
  obtain ⟨pts, np, pp, ps, w, ly⟩ := d
  have hly : ly = some l := hl
  subst hly
  rw [transition_dragStop_some]
  have htdl : (dragStopAdopt pts np pp ps w l env).layer = some l := by
    unfold dragStopAdopt
    split <;> rfl
  rw [update_spline_fst_next_point _ false g l htdl]
  unfold dragStopAdopt
  split <;> rfl

/-- Witness for C5 (amended): a pointer strictly beyond the threshold
is adopted. -/
theorem dragStop_adopts_iff_strictly_beyond_witness :
    (transition .Drawing .DragStop
        ⟨[(1, (0, 0))], (2, 2), none, none, 5, some 0⟩
        (envAt (5, 5)) opts0 2).data.next_point = (5, 5) := by
  rw [dragStop_adopts_iff_strictly_beyond _ _ _ _ 0 rfl]
  decide

/-- C6 counterexample: two DragStops at the same spot commit two points
with the same position: the second lies within the threshold of the
last committed point, yet a (duplicate) point is still committed. -/
theorem duplicate_commit_counterexample :
    ((run initConfig
        [(.DragStart, envAt (0, 0)), (.DragStop, envAt (0, 0)),
          (.DragStop, envAt (0, 0))] opts0).1.data.points.map Prod.snd =
      [(0, 0), (0, 0)]) ∧
    (distGt (0, 0) (0, 0) DRAG_THRESHOLD = false) := by
  decide

/-- C6 amended: the drag-distance threshold at DragStop suppresses only
the adoption of the newly computed position: a DragStop within the
threshold of the last committed point still commits a point, at the
previously stored pending position (which may duplicate the last
committed point); at PointerMove no filtering occurs and the pending
position always tracks the computed pointer position. -/
theorem threshold_suppresses_only_adoption :
    (∀ (d : SplineToolData) (env : Env) (opts : SplineOptions) (g : Nat)
        (l : Id) (last : Id × Pos),
      d.layer = some l → d.points.getLast? = some last →
      distGt last.2 (env.viewportToLayer l env.mouse) DRAG_THRESHOLD = false →
      (transition .Drawing .DragStop d env opts g).data.points =
        d.points ++ [(g, d.next_point)]) ∧
    (∀ (d : SplineToolData) (env : Env) (opts : SplineOptions) (g : Nat)
        (l : Id),
      d.layer = some l →
      (transition .Drawing .PointerMove d env opts g).data.next_point =
        env.viewportToLayer l env.mouse) := by
  constructor
  · intro d env opts g l last hl hlast hdist
    obtain ⟨pts, np, pp, ps, w, ly⟩ := d
    have hly : ly = some l := hl
    subst hly
    have hlast2 : pts.getLast? = some last := hlast
    rw [transition_dragStop_some]
    have hAdopt : dragStopAdopt pts np pp ps w l env =
        ⟨pts, np, pp, ps, w, some l⟩ := by
      unfold dragStopAdopt
      rw [hlast2]
      simp [hdist]
    rw [hAdopt, update_spline_false_points _ g l rfl]
  · intro d env opts g l hl
    obtain ⟨pts, np, pp, ps, w, ly⟩ := d
    have hly : ly = some l := hl
    subst hly
    rw [transition_pointerMove_some]
    rw [update_spline_fst_next_point _ true g l rfl]

/-- Witness for C6 (amended): a within-threshold DragStop commits the
stored pending position, and a PointerMove adopts the raw pointer. -/
theorem threshold_suppresses_only_adoption_witness :
    ((transition .Drawing .DragStop
        ⟨[(1, (0, 0))], (9, 9), none, none, 5, some 0⟩
        (envAt (1, 0)) opts0 2).data.points = [(1, (0, 0)), (2, (9, 9))]) ∧
    ((transition .Drawing .PointerMove
        ⟨[(1, (0, 0))], (9, 9), none, none, 5, some 0⟩
        (envAt (4, 4)) opts0 2).data.next_point = (4, 4)) := by
  constructor
  · rw [threshold_suppresses_only_adoption.1
      ⟨[(1, (0, 0))], (9, 9), none, none, 5, some 0⟩ (envAt (1, 0)) opts0 2 0
      (1, (0, 0)) rfl rfl (by decide)]
    decide
  · rw [threshold_suppresses_only_adoption.2
      ⟨[(1, (0, 0))], (9, 9), none, none, 5, some 0⟩ (envAt (4, 4)) opts0 2 0
      rfl]
    decide

/-- C7: retraction is idempotent: a second delete_preview with no
intervening insert emits no commands and leaves the session exactly as
the first call left it. -/
theorem delete_preview_idempotent (d : SplineToolData) :
    delete_preview (delete_preview d).1 = ((delete_preview d).1, []) := by
  obtain ⟨pts, np, pp, ps, w, ly⟩ := d
  cases ly <;> cases pp <;> cases ps <;> rfl

/-- C8: after any trace from the initial configuration the layer
reference is present iff the state is Drawing; DragStart from Ready
installs the freshly generated layer, Confirm and Abort from Drawing
clear it, and no other transition changes the layer field. -/
theorem layer_iff_drawing :
    (∀ (trace : List (SplineToolMessage × Env)) (opts : SplineOptions),
      ((run initConfig trace opts).1.data.layer.isSome = true ↔
        (run initConfig trace opts).1.state = .Drawing)) ∧
    (∀ (s : SplineToolFsmState) (e : SplineToolMessage) (d : SplineToolData)
        (env : Env) (opts : SplineOptions) (g : Nat),
      (transition s e d env opts g).data.layer =
        if s = .Ready ∧ e = .DragStart then some g
        else if s = .Drawing ∧ (e = .Confirm ∨ e = .Abort) then none
        else d.layer) ∧
    (∀ (d : SplineToolData) (env : Env) (opts : SplineOptions) (g : Nat),
      (transition .Ready .DragStart d env opts g).state = .Drawing ∧
      (transition .Drawing .Confirm d env opts g).state = .Ready ∧
      (transition .Drawing .Abort d env opts g).state = .Ready) := by
  refine ⟨fun trace opts => (inv_run trace opts).1, ?_, ?_⟩
  · intro s e d env opts g
    obtain ⟨pts, np, pp, ps, w, ly⟩ := d
    cases s <;> cases e
    case Drawing.DragStop =>
      cases ly with
      | none => simp [transition_dragStop_none]
      | some l =>
        rw [transition_dragStop_some]
        have htdl : (dragStopAdopt pts np pp ps w l env).layer = some l := by
          unfold dragStopAdopt
          split <;> rfl
        rw [update_spline_fst_layer]
        simp [htdl]
    case Drawing.PointerMove =>
      cases ly with
      | none => simp [transition_pointerMove_none]
      | some l =>
        rw [transition_pointerMove_some, update_spline_fst_layer]
        simp
    case Drawing.Confirm =>
      rw [transition_end_eq pts np pp ps w ly env opts g _ (Or.inl rfl)]
      simp
    case Drawing.Abort =>
      rw [transition_end_eq pts np pp ps w ly env opts g _ (Or.inr rfl)]
      simp
    all_goals simp [transition]
  · intro d env opts g
    obtain ⟨pts, np, pp, ps, w, ly⟩ := d
    exact ⟨rfl, rfl, rfl⟩

/-- C9 counterexample: DragStop handled in Drawing with an absent layer
still emits the document command EndTransaction, refuting the claim
that no document commands are emitted by that handler. -/
theorem missing_layer_emits_endTransaction :
    ((transition .Drawing .DragStop ⟨[], (0, 0), none, none, 5, none⟩
        (envAt (0, 0)) opts0 0).emitted = [Command.EndTransaction]) ∧
    (Command.isDocument Command.EndTransaction = true) := by
  decide

/-- C9 amended: with an absent layer reference, PointerMove in Drawing
emits nothing and falls back to Ready; DragStop in Drawing falls back
to Ready after emitting only the unconditional EndTransaction that the
handler issues before the layer check; neither handler touches the
session. -/
theorem missing_layer_skips (d : SplineToolData) (env : Env)
    (opts : SplineOptions) (g : Nat) (h : d.layer = none) :
    (transition .Drawing .PointerMove d env opts g = ⟨.Ready, d, [], g⟩) ∧
    (transition .Drawing .DragStop d env opts g =
      ⟨.Ready, d, [Command.EndTransaction], g⟩) := by
  obtain ⟨pts, np, pp, ps, w, ly⟩ := d
  have hly : ly = none := h
  subst hly
  exact ⟨transition_pointerMove_none pts np pp ps w env opts g,
    transition_dragStop_none pts np pp ps w env opts g⟩

/-- Witness for C9 (amended) at a concrete layerless Drawing session. -/
theorem missing_layer_skips_witness :
    (transition .Drawing .PointerMove ⟨[], (1, 1), none, none, 5, none⟩
        (envAt (0, 0)) opts0 3 =
      ⟨.Ready, ⟨[], (1, 1), none, none, 5, none⟩, [], 3⟩) ∧
    (transition .Drawing .DragStop ⟨[], (1, 1), none, none, 5, none⟩
        (envAt (0, 0)) opts0 3 =
      ⟨.Ready, ⟨[], (1, 1), none, none, 5, none⟩,
        [Command.EndTransaction], 3⟩) :=
  missing_layer_skips ⟨[], (1, 1), none, none, 5, none⟩ (envAt (0, 0))
    opts0 3 rfl

/-- C10: processing any UpdateOptions message leaves the machine state
and the entire session unchanged, modifies only the options record, and
emits exactly a tool-options layout refresh. -/
theorem update_options_touches_only_options (tool : SplineTool)
    (action : SplineOptionsUpdate) (env : Env) (g : Nat) :
    ((process_message tool (.UpdateOptions action) env g).1.fsm_state =
      tool.fsm_state) ∧
    ((process_message tool (.UpdateOptions action) env g).1.tool_data =
      tool.tool_data) ∧
    ((process_message tool (.UpdateOptions action) env g).2.1 =
      [Command.LayoutToolOptions]) ∧
    ((process_message tool (.UpdateOptions action) env g).2.2 = g) := by
  obtain ⟨st, td, opts⟩ := tool
  cases action <;> exact ⟨rfl, rfl, rfl, rfl⟩

end SplineToolSpec
